import Mathlib

/-!
Verification of the lorina Verilog AST graph
(`include/lorina/verilog/ast_graph.hpp`).

The header defines an arena (`verilog_ast_graph`) that owns a vector of
heap-allocated `ast_node` objects, addressed by dense `ast_id` handles
(`uint32_t`, assigned from the vector length at creation time), two
interning tables for identifiers, adapter constructors that normalize an
`ast_identifier` / `ast_identifier_list` handle into declaration nodes,
and a `ast_or_error` value that overloads the top bit of a handle as a
validity marker.

The shallow embedding below mirrors that header: every C++ subclass of
`ast_node` becomes one constructor of `NodeVariant`; the common base
fields (`id_`, `children_`) become the fields of `AstNode`; the arena's
`std::vector<ast_node*> nodes_` becomes a `List AstNode`; the two
`std::unordered_map<std::string, ast_id>` interning tables become
association lists (lookup = `std::unordered_map::find`, which is keyed
on exact string equality exactly like `List.find?` on the key here).
Machine integers (`uint32_t` handles) are modelled as `Nat`; the only
place 32-bit wrap-around matters is `ast_or_error`, where it is made
explicit with `% 2 ^ 32`.
-/

namespace Lorina

/-- C++ `sign_kind` from the header (`SIGN_MINUS = 1`). -/
inductive SignKind where
  | minus
deriving DecidableEq

/-- C++ `expr_kind` from the header (`EXPR_ADD = 1` .. `EXPR_XOR = 6`). -/
inductive ExprKind where
  | add
  | mul
  | enot
  | eand
  | eor
  | exor
deriving DecidableEq

/-- The payload shared by `ast_input_declaration`, `ast_output_declaration`
and `ast_wire_declaration`: the `word_level_`, `hi_` and `lo_` fields.
In C++ the bit-level constructor leaves `hi_`/`lo_` uninitialized (their
accessors assert `word_level_`); the embedding initializes them to `0`
on that path, which no verified property reads. -/
structure DeclData where
  word_level : Bool
  hi : Nat
  lo : Nat
deriving DecidableEq

/-- One constructor per concrete C++ subclass of `ast_node`.  Fields are
the subclass-specific payload; the common `children_` vector lives in
`AstNode`. -/
inductive NodeVariant where
  | numeral (value : String)
  | identifier (text : String)
  | arithmeticIdentifier (text : String)
  | identifierList
  | arraySelect
  | rangeExpression
  | sign (kind : SignKind)
  | expression (kind : ExprKind)
  | systemFunction (fn : Nat)
  | inputDeclaration (d : DeclData)
  | outputDeclaration (d : DeclData)
  | wireDeclaration (d : DeclData)
  | moduleInstantiation (module_name : Nat) (instance_name : Nat)
      (port_assignment : List (Nat × Nat)) (parameters : List Nat)
  | parameterDeclaration
  | assignment
  | moduleDef (module_name : String) (args : List Nat) (decls : List Nat)
deriving DecidableEq

/-- The `ast_node` base: own handle `id_` plus ordered child handles
`children_`, together with the variant payload of the concrete subclass. -/
structure AstNode where
  id : Nat
  children : List Nat
  variant : NodeVariant
deriving DecidableEq

/-- C++ `ast_node::is_leaf`: true iff the children vector is empty. -/
def AstNode.is_leaf (n : AstNode) : Bool :=
  n.children.length == 0

/-- C++ `ast_node::foreach_child`: invokes the callback once per child, in
order.  Modelled as the list of callback results, so the number and order
of invocations is observable. -/
def AstNode.foreach_child (n : AstNode) (f : Nat → Nat) : List Nat :=
  n.children.map f

/-- C++ `identifiers()` accessor of the declaration/list nodes: returns the
children vector. -/
def AstNode.identifiers (n : AstNode) : List Nat :=
  n.children

/-- C++ `verilog_ast_graph::ast_or_error`: a `uint32_t` whose top bit
(`0x80000000`) marks validity and whose low 31 bits carry the handle. -/
structure AstOrError where
  ast_ : Nat
deriving DecidableEq

/-- The one-argument constructor: stores the handle and sets the top bit
(`ast_ |= 0x80000000`).  The parameter is a `uint32_t`, hence the
`% 2 ^ 32`. -/
def AstOrError.ofAst (h : Nat) : AstOrError :=
  ⟨(h % 2 ^ 32) ||| 0x80000000⟩

/-- The zero-argument constructor: `ast_ = 0`, the error sentinel. -/
def AstOrError.mkError : AstOrError :=
  ⟨0⟩

/-- C++ `ast_or_error::ast()`: the low 31 bits, `ast_ & 0x7FFFFFFF`. -/
def AstOrError.ast (e : AstOrError) : Nat :=
  e.ast_ &&& 0x7FFFFFFF

/-- C++ `ast_or_error::valid()`: `ast_ & 0x80000000`, converted to `bool`
(nonzero test). -/
def AstOrError.valid (e : AstOrError) : Bool :=
  (e.ast_ &&& 0x80000000) != 0

/-- Failure modes of the adapter constructors: `fatalAbort` models the
`assert(false …); std::abort();` branches (and the `assert(id < size)`
range preconditions), `undefinedBehavior` models an out-of-range
`std::vector::operator[]` read with no defined outcome. -/
inductive AdapterError where
  | fatalAbort
  | undefinedBehavior
deriving DecidableEq

/-- C++ `verilog_ast_graph`: the node arena plus the two interning tables
(`identifier_hash_`, `arithmetic_identifier_hash_`). -/
structure VerilogAstGraph where
  nodes : List AstNode
  identifier_hash : List (String × Nat)
  arithmetic_identifier_hash : List (String × Nat)
deriving DecidableEq

/-- The default-constructed (empty) arena. -/
def VerilogAstGraph.empty : VerilogAstGraph :=
  ⟨[], [], []⟩

/-- C++ `std::unordered_map<std::string, ast_id>::find`: lookup by exact
string equality. -/
def hashFind (m : List (String × Nat)) (s : String) : Option Nat :=
  (m.find? (fun p => p.1 == s)).map Prod.snd

/-- C++ `verilog_ast_graph::create_node<T>`: the new node's handle is the
current vector length; the node is appended; the handle is returned. -/
def VerilogAstGraph.create_node (g : VerilogAstGraph) (children : List Nat)
    (v : NodeVariant) : Nat × VerilogAstGraph :=
  let index := g.nodes.length
  (index, { g with nodes := g.nodes ++ [⟨index, children, v⟩] })

/-- C++ `create_numeral`: appends an `ast_numeral`; no interning. -/
def VerilogAstGraph.create_numeral (g : VerilogAstGraph) (s : String) :
    Nat × VerilogAstGraph :=
  g.create_node [] (.numeral s)

/-- C++ `create_identifier`: looks `s` up in `identifier_hash_`; on a miss
appends a fresh `ast_identifier` and records the mapping, on a hit
returns the recorded handle unchanged. -/
def VerilogAstGraph.create_identifier (g : VerilogAstGraph) (s : String) :
    Nat × VerilogAstGraph :=
  match hashFind g.identifier_hash s with
  | none =>
      let r := g.create_node [] (.identifier s)
      (r.1, { r.2 with identifier_hash := r.2.identifier_hash ++ [(s, r.1)] })
  | some id => (id, g)

/-- C++ `create_arithmetic_identifier`: as `create_identifier`, against
`arithmetic_identifier_hash_`. -/
def VerilogAstGraph.create_arithmetic_identifier (g : VerilogAstGraph)
    (s : String) : Nat × VerilogAstGraph :=
  match hashFind g.arithmetic_identifier_hash s with
  | none =>
      let r := g.create_node [] (.arithmeticIdentifier s)
      (r.1,
        { r.2 with
          arithmetic_identifier_hash :=
            r.2.arithmetic_identifier_hash ++ [(s, r.1)] })
  | some id => (id, g)

/-- C++ `create_identifier_list`: appends an `ast_identifier_list` whose
children are the supplied handles (no validation). -/
def VerilogAstGraph.create_identifier_list (g : VerilogAstGraph)
    (ids : List Nat) : Nat × VerilogAstGraph :=
  g.create_node ids .identifierList

/-- C++ `create_range_expression`: children `[hi, lo]`. -/
def VerilogAstGraph.create_range_expression (g : VerilogAstGraph)
    (hi lo : Nat) : Nat × VerilogAstGraph :=
  g.create_node [hi, lo] .rangeExpression

/-- C++ `create_array_select`: children `[array, index]`. -/
def VerilogAstGraph.create_array_select (g : VerilogAstGraph)
    (array index : Nat) : Nat × VerilogAstGraph :=
  g.create_node [array, index] .arraySelect

/-- C++ `create_negative_sign`: `ast_sign` with kind `SIGN_MINUS`, child
`[expr]`. -/
def VerilogAstGraph.create_negative_sign (g : VerilogAstGraph) (expr : Nat) :
    Nat × VerilogAstGraph :=
  g.create_node [expr] (.sign .minus)

/-- C++ `create_sum_expression`: binary `ast_expression` with `EXPR_ADD`. -/
def VerilogAstGraph.create_sum_expression (g : VerilogAstGraph)
    (term expr : Nat) : Nat × VerilogAstGraph :=
  g.create_node [term, expr] (.expression .add)

/-- C++ `create_mul_expression`: binary `ast_expression` with `EXPR_MUL`. -/
def VerilogAstGraph.create_mul_expression (g : VerilogAstGraph)
    (term expr : Nat) : Nat × VerilogAstGraph :=
  g.create_node [term, expr] (.expression .mul)

/-- C++ `create_not_expression`: unary `ast_expression` with `EXPR_NOT`. -/
def VerilogAstGraph.create_not_expression (g : VerilogAstGraph) (expr : Nat) :
    Nat × VerilogAstGraph :=
  g.create_node [expr] (.expression .enot)

/-- C++ `create_and_expression`: binary `ast_expression` with `EXPR_AND`. -/
def VerilogAstGraph.create_and_expression (g : VerilogAstGraph)
    (term expr : Nat) : Nat × VerilogAstGraph :=
  g.create_node [term, expr] (.expression .eand)

/-- C++ `create_or_expression`: binary `ast_expression` with `EXPR_OR`. -/
def VerilogAstGraph.create_or_expression (g : VerilogAstGraph)
    (term expr : Nat) : Nat × VerilogAstGraph :=
  g.create_node [term, expr] (.expression .eor)

/-- C++ `create_xor_expression`: binary `ast_expression` with `EXPR_XOR`. -/
def VerilogAstGraph.create_xor_expression (g : VerilogAstGraph)
    (term expr : Nat) : Nat × VerilogAstGraph :=
  g.create_node [term, expr] (.expression .exor)

/-- C++ `create_system_function`: children are the argument handles; the
function-name handle is payload (`fun_`), not a child. -/
def VerilogAstGraph.create_system_function (g : VerilogAstGraph) (fn : Nat)
    (args : List Nat) : Nat × VerilogAstGraph :=
  g.create_node args (.systemFunction fn)

/-- C++ `create_module_instantiation`: all four references are payload; the
children vector is empty (the `ast_node(id)` base constructor is used). -/
def VerilogAstGraph.create_module_instantiation (g : VerilogAstGraph)
    (module_name instance_name : Nat) (port_assignment : List (Nat × Nat))
    (parameters : List Nat) : Nat × VerilogAstGraph :=
  g.create_node []
    (.moduleInstantiation module_name instance_name port_assignment parameters)

/-- C++ `create_parameter_declaration`: children `[identifier, expr]`. -/
def VerilogAstGraph.create_parameter_declaration (g : VerilogAstGraph)
    (identifier expr : Nat) : Nat × VerilogAstGraph :=
  g.create_node [identifier, expr] .parameterDeclaration

/-- C++ `create_assignment`: children `[signal, expr]`. -/
def VerilogAstGraph.create_assignment (g : VerilogAstGraph)
    (signal expr : Nat) : Nat × VerilogAstGraph :=
  g.create_node [signal, expr] .assignment

/-- C++ `create_module`: module name, args and decls are payload; the
children vector is empty. -/
def VerilogAstGraph.create_module (g : VerilogAstGraph) (module_name : String)
    (args decls : List Nat) : Nat × VerilogAstGraph :=
  g.create_node [] (.moduleDef module_name args decls)

/-- C++ `node_ptr`: `nodes_.at(id)`.  `std::vector::at` returns the stored
node when `id < nodes_.size()`; out of range it throws
`std::out_of_range`, which nothing in the store catches, so no value is
returned on that path — modelled as `none`. -/
def VerilogAstGraph.node_ptr (g : VerilogAstGraph) (id : Nat) :
    Option AstNode :=
  g.nodes[id]?

/-- The common body of the one-argument adapters
`create_input_declaration(id)` / `create_output_declaration(id)` /
`create_wire_declaration(id)` — the three C++ bodies are identical up to
the constructed node type, supplied here as `mk`.  `assert(id < size)`
failing, and the `assert(false); std::abort()` branch on an unexpected
variant, are both fatal. -/
def VerilogAstGraph.create_declaration (g : VerilogAstGraph)
    (mk : DeclData → NodeVariant) (id : Nat) :
    Except AdapterError (Nat × VerilogAstGraph) :=
  match g.nodes[id]? with
  | none => .error .fatalAbort
  | some node =>
    match node.variant with
    | .identifierList =>
        .ok (g.create_node node.identifiers (mk ⟨false, 0, 0⟩))
    | .identifier _ =>
        .ok (g.create_node [id] (mk ⟨false, 0, 0⟩))
    | _ => .error .fatalAbort

/-- The common body of the two-argument adapters
`create_*_declaration(id, rid)`.  `rid` is dereferenced through an
unchecked `static_cast<ast_range_expression*>`, so `hi()` / `lo()` read
`children_[0]` / `children_[1]` of whatever node `rid` names; no variant
check is performed on `rid`.  If that node has fewer than two children
the reads are out-of-range `std::vector::operator[]` accesses
(undefined behavior). -/
def VerilogAstGraph.create_declaration2 (g : VerilogAstGraph)
    (mk : DeclData → NodeVariant) (id rid : Nat) :
    Except AdapterError (Nat × VerilogAstGraph) :=
  match g.nodes[id]?, g.nodes[rid]? with
  | some node, some rnode =>
    match node.variant with
    | .identifierList =>
      match rnode.children[0]?, rnode.children[1]? with
      | some hi, some lo =>
          .ok (g.create_node node.identifiers (mk ⟨true, hi, lo⟩))
      | _, _ => .error .undefinedBehavior
    | .identifier _ =>
      match rnode.children[0]?, rnode.children[1]? with
      | some hi, some lo =>
          .ok (g.create_node [id] (mk ⟨true, hi, lo⟩))
      | _, _ => .error .undefinedBehavior
    | _ => .error .fatalAbort
  | _, _ => .error .fatalAbort

/-- C++ `create_input_declaration(id)`. -/
def VerilogAstGraph.create_input_declaration (g : VerilogAstGraph)
    (id : Nat) : Except AdapterError (Nat × VerilogAstGraph) :=
  g.create_declaration NodeVariant.inputDeclaration id

/-- C++ `create_input_declaration(id, rid)`. -/
def VerilogAstGraph.create_input_declaration2 (g : VerilogAstGraph)
    (id rid : Nat) : Except AdapterError (Nat × VerilogAstGraph) :=
  g.create_declaration2 NodeVariant.inputDeclaration id rid

/-- C++ `create_output_declaration(id)`. -/
def VerilogAstGraph.create_output_declaration (g : VerilogAstGraph)
    (id : Nat) : Except AdapterError (Nat × VerilogAstGraph) :=
  g.create_declaration NodeVariant.outputDeclaration id

/-- C++ `create_output_declaration(id, rid)`. -/
def VerilogAstGraph.create_output_declaration2 (g : VerilogAstGraph)
    (id rid : Nat) : Except AdapterError (Nat × VerilogAstGraph) :=
  g.create_declaration2 NodeVariant.outputDeclaration id rid

/-- C++ `create_wire_declaration(id)`. -/
def VerilogAstGraph.create_wire_declaration (g : VerilogAstGraph)
    (id : Nat) : Except AdapterError (Nat × VerilogAstGraph) :=
  g.create_declaration NodeVariant.wireDeclaration id

/-- C++ `create_wire_declaration(id, rid)`. -/
def VerilogAstGraph.create_wire_declaration2 (g : VerilogAstGraph)
    (id rid : Nat) : Except AdapterError (Nat × VerilogAstGraph) :=
  g.create_declaration2 NodeVariant.wireDeclaration id rid

/-- Invariant I2 of the spec: every stored node's own handle equals its
index in the arena. -/
def DenseIds (ns : List AstNode) : Prop :=
  ∀ (i : Nat) (n : AstNode), ns[i]? = some n → n.id = i

/-- Invariant I1 of the spec: every child handle is strictly below the
handle of the referring node. -/
def ChildrenBound (ns : List AstNode) : Prop :=
  ∀ n ∈ ns, ∀ c ∈ n.children, c < n.id

/-- Correctness of an interning table: every recorded `(text, handle)`
pair points at a stored node of the interned variant with that text. -/
def HashWF (ns : List AstNode) (m : List (String × Nat))
    (mk : String → NodeVariant) : Prop :=
  ∀ s id, (s, id) ∈ m → ∃ n, ns[id]? = some n ∧ n.variant = mk s

/-- The arena's construction invariant: dense IDs, topologically ordered
children, and both interning tables consistent with the stored nodes. -/
def WF (g : VerilogAstGraph) : Prop :=
  DenseIds g.nodes ∧ ChildrenBound g.nodes ∧
  HashWF g.nodes g.identifier_hash NodeVariant.identifier ∧
  HashWF g.nodes g.arithmetic_identifier_hash NodeVariant.arithmeticIdentifier

/-- The graphs producible by the public factory interface from a fresh
arena, under the documented precondition that callers pass only handles
previously returned by the arena (every handle that becomes a child is a
valid handle at the time of the call); adapter steps are the successful
(`.ok`) calls. -/
inductive Reachable : VerilogAstGraph → Prop where
  | empty : Reachable VerilogAstGraph.empty
  | numeral (g : VerilogAstGraph) (s : String) :
      Reachable g → Reachable (g.create_numeral s).2
  | identifier (g : VerilogAstGraph) (s : String) :
      Reachable g → Reachable (g.create_identifier s).2
  | arithmetic_identifier (g : VerilogAstGraph) (s : String) :
      Reachable g → Reachable (g.create_arithmetic_identifier s).2
  | identifier_list (g : VerilogAstGraph) (ids : List Nat)
      (hids : ∀ i ∈ ids, i < g.nodes.length) :
      Reachable g → Reachable (g.create_identifier_list ids).2
  | range_expression (g : VerilogAstGraph) (hi lo : Nat)
      (hhi : hi < g.nodes.length) (hlo : lo < g.nodes.length) :
      Reachable g → Reachable (g.create_range_expression hi lo).2
  | array_select (g : VerilogAstGraph) (array index : Nat)
      (ha : array < g.nodes.length) (hx : index < g.nodes.length) :
      Reachable g → Reachable (g.create_array_select array index).2
  | negative_sign (g : VerilogAstGraph) (expr : Nat)
      (he : expr < g.nodes.length) :
      Reachable g → Reachable (g.create_negative_sign expr).2
  | sum_expression (g : VerilogAstGraph) (term expr : Nat)
      (ht : term < g.nodes.length) (he : expr < g.nodes.length) :
      Reachable g → Reachable (g.create_sum_expression term expr).2
  | mul_expression (g : VerilogAstGraph) (term expr : Nat)
      (ht : term < g.nodes.length) (he : expr < g.nodes.length) :
      Reachable g → Reachable (g.create_mul_expression term expr).2
  | not_expression (g : VerilogAstGraph) (expr : Nat)
      (he : expr < g.nodes.length) :
      Reachable g → Reachable (g.create_not_expression expr).2
  | and_expression (g : VerilogAstGraph) (term expr : Nat)
      (ht : term < g.nodes.length) (he : expr < g.nodes.length) :
      Reachable g → Reachable (g.create_and_expression term expr).2
  | or_expression (g : VerilogAstGraph) (term expr : Nat)
      (ht : term < g.nodes.length) (he : expr < g.nodes.length) :
      Reachable g → Reachable (g.create_or_expression term expr).2
  | xor_expression (g : VerilogAstGraph) (term expr : Nat)
      (ht : term < g.nodes.length) (he : expr < g.nodes.length) :
      Reachable g → Reachable (g.create_xor_expression term expr).2
  | system_function (g : VerilogAstGraph) (fn : Nat) (args : List Nat)
      (hargs : ∀ a ∈ args, a < g.nodes.length) :
      Reachable g → Reachable (g.create_system_function fn args).2
  | input_declaration (g : VerilogAstGraph) (id : Nat)
      (r : Nat × VerilogAstGraph)
      (hok : g.create_input_declaration id = .ok r) :
      Reachable g → Reachable r.2
  | input_declaration2 (g : VerilogAstGraph) (id rid : Nat)
      (r : Nat × VerilogAstGraph)
      (hok : g.create_input_declaration2 id rid = .ok r) :
      Reachable g → Reachable r.2
  | output_declaration (g : VerilogAstGraph) (id : Nat)
      (r : Nat × VerilogAstGraph)
      (hok : g.create_output_declaration id = .ok r) :
      Reachable g → Reachable r.2
  | output_declaration2 (g : VerilogAstGraph) (id rid : Nat)
      (r : Nat × VerilogAstGraph)
      (hok : g.create_output_declaration2 id rid = .ok r) :
      Reachable g → Reachable r.2
  | wire_declaration (g : VerilogAstGraph) (id : Nat)
      (r : Nat × VerilogAstGraph)
      (hok : g.create_wire_declaration id = .ok r) :
      Reachable g → Reachable r.2
  | wire_declaration2 (g : VerilogAstGraph) (id rid : Nat)
      (r : Nat × VerilogAstGraph)
      (hok : g.create_wire_declaration2 id rid = .ok r) :
      Reachable g → Reachable r.2
  | module_instantiation (g : VerilogAstGraph) (mn inm : Nat)
      (pa : List (Nat × Nat)) (ps : List Nat) :
      Reachable g → Reachable (g.create_module_instantiation mn inm pa ps).2
  | parameter_declaration (g : VerilogAstGraph) (identifier expr : Nat)
      (hid : identifier < g.nodes.length) (he : expr < g.nodes.length) :
      Reachable g → Reachable (g.create_parameter_declaration identifier expr).2
  | assignment (g : VerilogAstGraph) (signal expr : Nat)
      (hs : signal < g.nodes.length) (he : expr < g.nodes.length) :
      Reachable g → Reachable (g.create_assignment signal expr).2
  | module_def (g : VerilogAstGraph) (name : String) (args decls : List Nat) :
      Reachable g → Reachable (g.create_module name args decls).2

/-- A small concrete arena used by the witness and counterexample
theorems.  Handles: 0 = identifier "a", 1 = identifier "b",
2 = identifier list [0, 1], 3 = numeral "7", 4 = numeral "0",
5 = range expression [3, 4], 6 = array select [0, 3]. -/
def demo_graph : VerilogAstGraph :=
  ((((((VerilogAstGraph.empty.create_identifier "a").2.create_identifier
    "b").2.create_identifier_list [0, 1]).2.create_numeral
    "7").2.create_numeral "0").2.create_range_expression 3
    4).2.create_array_select 0 3 |>.2

/-! ## Basic facts about `create_node` and the invariants -/

theorem create_node_snd_nodes (g : VerilogAstGraph) (ch : List Nat)
    (v : NodeVariant) :
    (g.create_node ch v).2.nodes = g.nodes ++ [⟨g.nodes.length, ch, v⟩] :=
  rfl

theorem create_node_fst (g : VerilogAstGraph) (ch : List Nat)
    (v : NodeVariant) : (g.create_node ch v).1 = g.nodes.length :=
  rfl

theorem create_node_id_hash (g : VerilogAstGraph) (ch : List Nat)
    (v : NodeVariant) :
    (g.create_node ch v).2.identifier_hash = g.identifier_hash :=
  rfl

theorem create_node_arith_hash (g : VerilogAstGraph) (ch : List Nat)
    (v : NodeVariant) :
    (g.create_node ch v).2.arithmetic_identifier_hash =
      g.arithmetic_identifier_hash :=
  rfl

theorem mem_of_getElem_opt {l : List AstNode} {n : Nat} {a : AstNode}
    (h : l[n]? = some a) : a ∈ l := by
  obtain ⟨hlt, rfl⟩ := List.getElem?_eq_some_iff.mp h
  exact List.getElem_mem hlt

theorem lt_length_of_getElem_opt {l : List AstNode} {n : Nat} {a : AstNode}
    (h : l[n]? = some a) : n < l.length :=
  (List.getElem?_eq_some_iff.mp h).1

theorem denseIds_append {ns : List AstNode} (hd : DenseIds ns) (ch : List Nat)
    (v : NodeVariant) : DenseIds (ns ++ [⟨ns.length, ch, v⟩]) := by
  intro i n hi
  rcases Nat.lt_trichotomy i ns.length with hlt | heq | hgt
  · rw [List.getElem?_append_left hlt] at hi
    exact hd i n hi
  · subst heq
    rw [List.getElem?_concat_length] at hi
    cases hi
    rfl
  · rw [List.getElem?_eq_none (by simp; omega)] at hi
    cases hi

theorem childrenBound_append {ns : List AstNode} (hc : ChildrenBound ns)
    (ch : List Nat) (v : NodeVariant) (hch : ∀ c ∈ ch, c < ns.length) :
    ChildrenBound (ns ++ [⟨ns.length, ch, v⟩]) := by
  intro n hn c hcm
  rcases List.mem_append.mp hn with h1 | h2
  · exact hc n h1 c hcm
  · rw [List.mem_singleton] at h2
    subst h2
    exact hch c hcm

theorem hashWF_append {ns : List AstNode} {m : List (String × Nat)}
    {mk : String → NodeVariant} (hh : HashWF ns m mk) (x : AstNode) :
    HashWF (ns ++ [x]) m mk := by
  intro s id hmem
  obtain ⟨n, hn, hv⟩ := hh s id hmem
  exact ⟨n, by
    rw [List.getElem?_append_left (lt_length_of_getElem_opt hn)]
    exact hn, hv⟩

theorem hashWF_append_entry {ns : List AstNode} {m : List (String × Nat)}
    {mk : String → NodeVariant} (hh : HashWF ns m mk) (s : String)
    (ch : List Nat) :
    HashWF (ns ++ [⟨ns.length, ch, mk s⟩]) (m ++ [(s, ns.length)]) mk := by
  intro s2 id hmem
  rcases List.mem_append.mp hmem with h1 | h2
  · exact hashWF_append hh _ s2 id h1
  · rw [List.mem_singleton] at h2
    injection h2 with hs hid
    subst hs
    subst hid
    exact ⟨⟨ns.length, ch, mk s2⟩, List.getElem?_concat_length _ _, rfl⟩

theorem wf_empty : WF VerilogAstGraph.empty := by
  refine ⟨?_, ?_, ?_, ?_⟩
  · intro i n h
    simp [VerilogAstGraph.empty] at h
  · intro n hn
    simp [VerilogAstGraph.empty] at hn
  · intro s id h
    simp [VerilogAstGraph.empty] at h
  · intro s id h
    simp [VerilogAstGraph.empty] at h

theorem wf_create_node {g : VerilogAstGraph} (hwf : WF g) (ch : List Nat)
    (v : NodeVariant) (hch : ∀ c ∈ ch, c < g.nodes.length) :
    WF (g.create_node ch v).2 := by
  obtain ⟨hd, hc, h1, h2⟩ := hwf
  refine ⟨?_, ?_, ?_, ?_⟩
  · rw [create_node_snd_nodes]
    exact denseIds_append hd ch v
  · rw [create_node_snd_nodes]
    exact childrenBound_append hc ch v hch
  · rw [create_node_snd_nodes, create_node_id_hash]
    exact hashWF_append h1 _
  · rw [create_node_snd_nodes, create_node_arith_hash]
    exact hashWF_append h2 _

/-! ## The interning operations, case by case -/

theorem create_identifier_hit (g : VerilogAstGraph) (s : String) (id : Nat)
    (hf : hashFind g.identifier_hash s = some id) :
    g.create_identifier s = (id, g) := by
  unfold VerilogAstGraph.create_identifier
  rw [hf]

theorem create_identifier_miss (g : VerilogAstGraph) (s : String)
    (hf : hashFind g.identifier_hash s = none) :
    g.create_identifier s =
      (g.nodes.length,
        { nodes := g.nodes ++ [⟨g.nodes.length, [], .identifier s⟩],
          identifier_hash := g.identifier_hash ++ [(s, g.nodes.length)],
          arithmetic_identifier_hash := g.arithmetic_identifier_hash }) := by
  unfold VerilogAstGraph.create_identifier
  rw [hf]
  rfl

theorem create_arith_hit (g : VerilogAstGraph) (s : String) (id : Nat)
    (hf : hashFind g.arithmetic_identifier_hash s = some id) :
    g.create_arithmetic_identifier s = (id, g) := by
  unfold VerilogAstGraph.create_arithmetic_identifier
  rw [hf]

theorem create_arith_miss (g : VerilogAstGraph) (s : String)
    (hf : hashFind g.arithmetic_identifier_hash s = none) :
    g.create_arithmetic_identifier s =
      (g.nodes.length,
        { nodes := g.nodes ++ [⟨g.nodes.length, [], .arithmeticIdentifier s⟩],
          identifier_hash := g.identifier_hash,
          arithmetic_identifier_hash :=
            g.arithmetic_identifier_hash ++ [(s, g.nodes.length)] }) := by
  unfold VerilogAstGraph.create_arithmetic_identifier
  rw [hf]
  rfl

theorem hashFind_mem {m : List (String × Nat)} {s : String} {id : Nat}
    (h : hashFind m s = some id) : (s, id) ∈ m := by
  unfold hashFind at h
  cases hf : m.find? (fun p => p.1 == s) with
  | none =>
      rw [hf] at h
      simp at h
  | some x =>
      rw [hf] at h
      simp at h
      have hp := List.find?_some hf
      have hmem := List.mem_of_find?_eq_some hf
      obtain ⟨a, b⟩ := x
      have ha : a = s := by simpa using hp
      have hb : b = id := by simpa using h
      subst ha
      subst hb
      exact hmem

theorem hashFind_append_self (m : List (String × Nat)) (s : String) (id : Nat)
    (hf : hashFind m s = none) : hashFind (m ++ [(s, id)]) s = some id := by
  have hfind : m.find? (fun p => p.1 == s) = none := by
    cases hm : m.find? (fun p => p.1 == s) with
    | none => rfl
    | some x =>
        unfold hashFind at hf
        rw [hm] at hf
        simp at hf
  unfold hashFind
  rw [List.find?_append, hfind]
  simp

theorem wf_create_identifier (g : VerilogAstGraph) (s : String) (hwf : WF g) :
    WF (g.create_identifier s).2 := by
  cases hf : hashFind g.identifier_hash s with
  | some id =>
      rw [create_identifier_hit g s id hf]
      exact hwf
  | none =>
      rw [create_identifier_miss g s hf]
      obtain ⟨hd, hc, h1, h2⟩ := hwf
      exact ⟨denseIds_append hd _ _, childrenBound_append hc _ _ (by simp),
        hashWF_append_entry h1 s [], hashWF_append h2 _⟩

theorem wf_create_arith (g : VerilogAstGraph) (s : String) (hwf : WF g) :
    WF (g.create_arithmetic_identifier s).2 := by
  cases hf : hashFind g.arithmetic_identifier_hash s with
  | some id =>
      rw [create_arith_hit g s id hf]
      exact hwf
  | none =>
      rw [create_arith_miss g s hf]
      obtain ⟨hd, hc, h1, h2⟩ := hwf
      exact ⟨denseIds_append hd _ _, childrenBound_append hc _ _ (by simp),
        hashWF_append h1 _, hashWF_append_entry h2 s []⟩

theorem create_arith_stable (g : VerilogAstGraph) (s : String) (i : Nat)
    (hi : i < g.nodes.length) :
    (g.create_arithmetic_identifier s).2.nodes[i]? = g.nodes[i]? := by
  cases hf : hashFind g.arithmetic_identifier_hash s with
  | some id => rw [create_arith_hit g s id hf]
  | none =>
      rw [create_arith_miss g s hf]
      exact List.getElem?_append_left hi

theorem create_ident_stable (g : VerilogAstGraph) (s : String) (i : Nat)
    (hi : i < g.nodes.length) :
    (g.create_identifier s).2.nodes[i]? = g.nodes[i]? := by
  cases hf : hashFind g.identifier_hash s with
  | some id => rw [create_identifier_hit g s id hf]
  | none =>
      rw [create_identifier_miss g s hf]
      exact List.getElem?_append_left hi

theorem create_identifier_spec (g : VerilogAstGraph) (s : String)
    (hwf : WF g) :
    (g.create_identifier s).1 < (g.create_identifier s).2.nodes.length ∧
    ∃ n : AstNode,
      (g.create_identifier s).2.nodes[(g.create_identifier s).1]? = some n ∧
      n.variant = .identifier s := by
  cases hf : hashFind g.identifier_hash s with
  | some id =>
      rw [create_identifier_hit g s id hf]
      obtain ⟨n, hn, hv⟩ := hwf.2.2.1 s id (hashFind_mem hf)
      exact ⟨lt_length_of_getElem_opt hn, n, hn, hv⟩
  | none =>
      rw [create_identifier_miss g s hf]
      exact ⟨by simp, _, List.getElem?_concat_length _ _, rfl⟩

theorem create_arith_spec (g : VerilogAstGraph) (s : String) (hwf : WF g) :
    (g.create_arithmetic_identifier s).1 <
      (g.create_arithmetic_identifier s).2.nodes.length ∧
    ∃ n : AstNode,
      (g.create_arithmetic_identifier s).2.nodes[
        (g.create_arithmetic_identifier s).1]? = some n ∧
      n.variant = .arithmeticIdentifier s := by
  cases hf : hashFind g.arithmetic_identifier_hash s with
  | some id =>
      rw [create_arith_hit g s id hf]
      obtain ⟨n, hn, hv⟩ := hwf.2.2.2 s id (hashFind_mem hf)
      exact ⟨lt_length_of_getElem_opt hn, n, hn, hv⟩
  | none =>
      rw [create_arith_miss g s hf]
      exact ⟨by simp, _, List.getElem?_concat_length _ _, rfl⟩

/-! ## Inversion of the adapter constructors -/

theorem create_declaration_ok {g : VerilogAstGraph}
    {mk : DeclData → NodeVariant} {id : Nat} {r : Nat × VerilogAstGraph}
    (h : g.create_declaration mk id = .ok r) :
    ∃ node : AstNode, g.nodes[id]? = some node ∧
      (r = g.create_node node.identifiers (mk ⟨false, 0, 0⟩) ∨
        r = g.create_node [id] (mk ⟨false, 0, 0⟩)) := by
  unfold VerilogAstGraph.create_declaration at h
  split at h
  · simp at h
  next node heq =>
    split at h
    · exact ⟨node, heq, Or.inl (by injection h with h2; exact h2.symm)⟩
    · exact ⟨node, heq, Or.inr (by injection h with h2; exact h2.symm)⟩
    · simp at h

theorem create_declaration2_ok {g : VerilogAstGraph}
    {mk : DeclData → NodeVariant} {id rid : Nat} {r : Nat × VerilogAstGraph}
    (h : g.create_declaration2 mk id rid = .ok r) :
    ∃ (node rnode : AstNode) (hi lo : Nat),
      g.nodes[id]? = some node ∧ g.nodes[rid]? = some rnode ∧
      rnode.children[0]? = some hi ∧ rnode.children[1]? = some lo ∧
      (r = g.create_node node.identifiers (mk ⟨true, hi, lo⟩) ∨
        r = g.create_node [id] (mk ⟨true, hi, lo⟩)) := by
  unfold VerilogAstGraph.create_declaration2 at h
  split at h
  next node rnode heq heq2 =>
    split at h
    · split at h
      next hi lo hc0 hc1 =>
        exact ⟨node, rnode, hi, lo, heq, heq2, hc0, hc1,
          Or.inl (by injection h with h2; exact h2.symm)⟩
      · simp at h
    · split at h
      next hi lo hc0 hc1 =>
        exact ⟨node, rnode, hi, lo, heq, heq2, hc0, hc1,
          Or.inr (by injection h with h2; exact h2.symm)⟩
      · simp at h
    · simp at h
  · simp at h

/-! ## Every reachable arena satisfies the construction invariant -/

theorem wf_adapter_result {g : VerilogAstGraph} (ih : WF g) {id : Nat}
    {node : AstNode} (hn : g.nodes[id]? = some node)
    {r : Nat × VerilogAstGraph} {dd : DeclData} {mk : DeclData → NodeVariant}
    (hcase : r = g.create_node node.identifiers (mk dd) ∨
      r = g.create_node [id] (mk dd)) : WF r.2 := by
  rcases hcase with rfl | rfl
  · refine wf_create_node ih _ _ ?_
    intro c hc
    have hb := ih.2.1 node (mem_of_getElem_opt hn) c hc
    have hid := ih.1 id node hn
    have hlen := lt_length_of_getElem_opt hn
    omega
  · refine wf_create_node ih _ _ ?_
    intro c hc
    rw [List.mem_singleton] at hc
    subst hc
    exact lt_length_of_getElem_opt hn

theorem reachable_wf {g : VerilogAstGraph} (hr : Reachable g) : WF g := by
  induction hr with
  | empty => exact wf_empty
  | numeral g s _ ih => exact wf_create_node ih _ _ (by simp)
  | identifier g s _ ih => exact wf_create_identifier g s ih
  | arithmetic_identifier g s _ ih => exact wf_create_arith g s ih
  | identifier_list g ids hids _ ih => exact wf_create_node ih _ _ hids
  | range_expression g hi lo hhi hlo _ ih =>
      exact wf_create_node ih _ _ (by simp [List.forall_mem_cons, hhi, hlo])
  | array_select g array index ha hx _ ih =>
      exact wf_create_node ih _ _ (by simp [List.forall_mem_cons, ha, hx])
  | negative_sign g expr he _ ih =>
      exact wf_create_node ih _ _ (by simp [List.forall_mem_cons, he])
  | sum_expression g term expr ht he _ ih =>
      exact wf_create_node ih _ _ (by simp [List.forall_mem_cons, ht, he])
  | mul_expression g term expr ht he _ ih =>
      exact wf_create_node ih _ _ (by simp [List.forall_mem_cons, ht, he])
  | not_expression g expr he _ ih =>
      exact wf_create_node ih _ _ (by simp [List.forall_mem_cons, he])
  | and_expression g term expr ht he _ ih =>
      exact wf_create_node ih _ _ (by simp [List.forall_mem_cons, ht, he])
  | or_expression g term expr ht he _ ih =>
      exact wf_create_node ih _ _ (by simp [List.forall_mem_cons, ht, he])
  | xor_expression g term expr ht he _ ih =>
      exact wf_create_node ih _ _ (by simp [List.forall_mem_cons, ht, he])
  | system_function g fn args hargs _ ih => exact wf_create_node ih _ _ hargs
  | input_declaration g id r hok _ ih =>
      obtain ⟨node, hn, hcase⟩ := create_declaration_ok hok
      exact wf_adapter_result ih hn hcase
  | input_declaration2 g id rid r hok _ ih =>
      obtain ⟨node, rnode, hi, lo, hn, _, _, _, hcase⟩ :=
        create_declaration2_ok hok
      exact wf_adapter_result ih hn hcase
  | output_declaration g id r hok _ ih =>
      obtain ⟨node, hn, hcase⟩ := create_declaration_ok hok
      exact wf_adapter_result ih hn hcase
  | output_declaration2 g id rid r hok _ ih =>
      obtain ⟨node, rnode, hi, lo, hn, _, _, _, hcase⟩ :=
        create_declaration2_ok hok
      exact wf_adapter_result ih hn hcase
  | wire_declaration g id r hok _ ih =>
      obtain ⟨node, hn, hcase⟩ := create_declaration_ok hok
      exact wf_adapter_result ih hn hcase
  | wire_declaration2 g id rid r hok _ ih =>
      obtain ⟨node, rnode, hi, lo, hn, _, _, _, hcase⟩ :=
        create_declaration2_ok hok
      exact wf_adapter_result ih hn hcase
  | module_instantiation g mn inm pa ps _ ih =>
      exact wf_create_node ih _ _ (by simp)
  | parameter_declaration g identifier expr hid he _ ih =>
      exact wf_create_node ih _ _ (by simp [List.forall_mem_cons, hid, he])
  | assignment g signal expr hs he _ ih =>
      exact wf_create_node ih _ _ (by simp [List.forall_mem_cons, hs, he])
  | module_def g name args decls _ ih =>
      exact wf_create_node ih _ _ (by simp)

theorem demo_reachable : Reachable demo_graph :=
  Reachable.array_select _ 0 3 (by decide) (by decide)
    (Reachable.range_expression _ 3 4 (by decide) (by decide)
      (Reachable.numeral _ "0"
        (Reachable.numeral _ "7"
          (Reachable.identifier_list _ [0, 1] (by decide)
            (Reachable.identifier _ "b"
              (Reachable.identifier _ "a" Reachable.empty))))))

/-! ## Claims -/

/-- Claim C5: after any sequence of successful create calls on a fresh
arena, every handle `i` below the arena size names exactly one node, and
the node stored at handle `i` reports its own handle (`id()`) equal to
`i` — a node's own handle equals its index in the arena's node
sequence. -/
theorem claim_dense_ids {g : VerilogAstGraph} (hr : Reachable g) :
    ∀ i : Nat, i < g.nodes.length →
      ∃! n : AstNode, g.nodes[i]? = some n ∧ n.id = i := by
  intro i hi
  refine ⟨g.nodes[i], ⟨List.getElem?_eq_getElem hi,
    (reachable_wf hr).1 i _ (List.getElem?_eq_getElem hi)⟩, ?_⟩
  rintro m ⟨hm, -⟩
  rw [List.getElem?_eq_getElem hi] at hm
  injection hm with h2
  exact h2.symm

theorem claim_dense_ids_witness :
    Reachable demo_graph ∧ 2 < demo_graph.nodes.length ∧
      (∃! n : AstNode, demo_graph.nodes[2]? = some n ∧ n.id = 2) :=
  ⟨demo_reachable, by decide, claim_dense_ids demo_reachable 2 (by decide)⟩

/-- Claim C6: in every arena built by the public factory interface with
valid handles (modelled by `Reachable`), every child handle appearing in
a node's children list is strictly less than the node's own handle: the
graph is acyclic and topologically ordered by construction. -/
theorem claim_children_bound {g : VerilogAstGraph} (hr : Reachable g) :
    ∀ n ∈ g.nodes, ∀ c ∈ n.children, c < n.id :=
  (reachable_wf hr).2.1

theorem claim_children_bound_witness :
    Reachable demo_graph ∧
      ∀ n ∈ demo_graph.nodes, ∀ c ∈ n.children, c < n.id :=
  ⟨demo_reachable, claim_children_bound demo_reachable⟩

/-- Claim C1: interning. On a well-formed arena, a repeated
`create_identifier(s)` call is a fixpoint (it returns the handle of the
first call and leaves the arena unchanged, so all subsequent calls return
that handle and grow the arena by 0); the first call on a text not yet
interned grows the arena by exactly 1; the same holds for
`create_arithmetic_identifier`; and interleaving the two with the same
text yields two distinct handles (the intern pools are independent). -/
theorem claim_interning (g : VerilogAstGraph) (s : String) (hwf : WF g) :
    (g.create_identifier s).2.create_identifier s = g.create_identifier s ∧
    (hashFind g.identifier_hash s = none →
      (g.create_identifier s).2.nodes.length = g.nodes.length + 1) ∧
    (∀ id, hashFind g.identifier_hash s = some id →
      (g.create_identifier s).2 = g) ∧
    (g.create_arithmetic_identifier s).2.create_arithmetic_identifier s =
      g.create_arithmetic_identifier s ∧
    (hashFind g.arithmetic_identifier_hash s = none →
      (g.create_arithmetic_identifier s).2.nodes.length =
        g.nodes.length + 1) ∧
    (∀ id, hashFind g.arithmetic_identifier_hash s = some id →
      (g.create_arithmetic_identifier s).2 = g) ∧
    (g.create_identifier s).1 ≠
      ((g.create_identifier s).2.create_arithmetic_identifier s).1 ∧
    (g.create_arithmetic_identifier s).1 ≠
      ((g.create_arithmetic_identifier s).2.create_identifier s).1 := by
  refine ⟨?_, ?_, ?_, ?_, ?_, ?_, ?_, ?_⟩
  · cases hf : hashFind g.identifier_hash s with
    | some id =>
        rw [create_identifier_hit g s id hf]
        exact create_identifier_hit g s id hf
    | none =>
        rw [create_identifier_miss g s hf]
        exact create_identifier_hit _ s g.nodes.length
          (hashFind_append_self _ s _ hf)
  · intro hf
    rw [create_identifier_miss g s hf]
    simp
  · intro id hf
    rw [create_identifier_hit g s id hf]
  · cases hf : hashFind g.arithmetic_identifier_hash s with
    | some id =>
        rw [create_arith_hit g s id hf]
        exact create_arith_hit g s id hf
    | none =>
        rw [create_arith_miss g s hf]
        exact create_arith_hit _ s g.nodes.length
          (hashFind_append_self _ s _ hf)
  · intro hf
    rw [create_arith_miss g s hf]
    simp
  · intro id hf
    rw [create_arith_hit g s id hf]
  · obtain ⟨hlt1, n1, hn1, hv1⟩ := create_identifier_spec g s hwf
    obtain ⟨hlt2, n2, hn2, hv2⟩ :=
      create_arith_spec (g.create_identifier s).2 s
        (wf_create_identifier g s hwf)
    intro hEq
    have hn1s :
        ((g.create_identifier s).2.create_arithmetic_identifier
          s).2.nodes[(g.create_identifier s).1]? = some n1 := by
      rw [create_arith_stable _ s _ hlt1]
      exact hn1
    rw [hEq] at hn1s
    injection hn1s.symm.trans hn2 with hne
    rw [← hne, hv1] at hv2
    exact NodeVariant.noConfusion hv2
  · obtain ⟨hlt1, n1, hn1, hv1⟩ := create_arith_spec g s hwf
    obtain ⟨hlt2, n2, hn2, hv2⟩ :=
      create_identifier_spec (g.create_arithmetic_identifier s).2 s
        (wf_create_arith g s hwf)
    intro hEq
    have hn1s :
        ((g.create_arithmetic_identifier s).2.create_identifier
          s).2.nodes[(g.create_arithmetic_identifier s).1]? = some n1 := by
      rw [create_ident_stable _ s _ hlt1]
      exact hn1
    rw [hEq] at hn1s
    injection hn1s.symm.trans hn2 with hne
    rw [← hne, hv1] at hv2
    exact NodeVariant.noConfusion hv2

theorem claim_interning_witness :
    WF VerilogAstGraph.empty ∧
    ((VerilogAstGraph.empty.create_identifier "x").2.create_identifier "x" =
        VerilogAstGraph.empty.create_identifier "x" ∧
      (hashFind VerilogAstGraph.empty.identifier_hash "x" = none →
        (VerilogAstGraph.empty.create_identifier "x").2.nodes.length =
          VerilogAstGraph.empty.nodes.length + 1) ∧
      (∀ id, hashFind VerilogAstGraph.empty.identifier_hash "x" = some id →
        (VerilogAstGraph.empty.create_identifier "x").2 =
          VerilogAstGraph.empty) ∧
      (VerilogAstGraph.empty.create_arithmetic_identifier
          "x").2.create_arithmetic_identifier "x" =
        VerilogAstGraph.empty.create_arithmetic_identifier "x" ∧
      (hashFind VerilogAstGraph.empty.arithmetic_identifier_hash "x" = none →
        (VerilogAstGraph.empty.create_arithmetic_identifier
            "x").2.nodes.length =
          VerilogAstGraph.empty.nodes.length + 1) ∧
      (∀ id,
        hashFind VerilogAstGraph.empty.arithmetic_identifier_hash "x" =
            some id →
          (VerilogAstGraph.empty.create_arithmetic_identifier "x").2 =
            VerilogAstGraph.empty) ∧
      (VerilogAstGraph.empty.create_identifier "x").1 ≠
        ((VerilogAstGraph.empty.create_identifier
            "x").2.create_arithmetic_identifier "x").1 ∧
      (VerilogAstGraph.empty.create_arithmetic_identifier "x").1 ≠
        ((VerilogAstGraph.empty.create_arithmetic_identifier
            "x").2.create_identifier "x").1) :=
  ⟨wf_empty, claim_interning VerilogAstGraph.empty "x" wf_empty⟩

/-! ## Forward computation of the adapter constructors -/

theorem create_declaration_list {g : VerilogAstGraph}
    {mk : DeclData → NodeVariant} {L nid : Nat} {cs : List Nat}
    (hL : g.nodes[L]? = some ⟨nid, cs, .identifierList⟩) :
    g.create_declaration mk L = .ok (g.create_node cs (mk ⟨false, 0, 0⟩)) := by
  unfold VerilogAstGraph.create_declaration
  rw [hL]
  rfl

theorem create_declaration_single {g : VerilogAstGraph}
    {mk : DeclData → NodeVariant} {x xid : Nat} {xch : List Nat} {t : String}
    (hx : g.nodes[x]? = some ⟨xid, xch, .identifier t⟩) :
    g.create_declaration mk x = .ok (g.create_node [x] (mk ⟨false, 0, 0⟩)) := by
  unfold VerilogAstGraph.create_declaration
  rw [hx]

theorem create_declaration2_list {g : VerilogAstGraph}
    {mk : DeclData → NodeVariant} {L rid nid rnid : Nat} {cs rest : List Nat}
    {hv lv : Nat} {rv : NodeVariant}
    (hL : g.nodes[L]? = some ⟨nid, cs, .identifierList⟩)
    (hR : g.nodes[rid]? = some ⟨rnid, hv :: lv :: rest, rv⟩) :
    g.create_declaration2 mk L rid =
      .ok (g.create_node cs (mk ⟨true, hv, lv⟩)) := by
  unfold VerilogAstGraph.create_declaration2
  rw [hL, hR]
  simp [AstNode.identifiers]

theorem create_declaration2_single {g : VerilogAstGraph}
    {mk : DeclData → NodeVariant} {x rid xid rnid : Nat} {xch rest : List Nat}
    {t : String} {hv lv : Nat} {rv : NodeVariant}
    (hx : g.nodes[x]? = some ⟨xid, xch, .identifier t⟩)
    (hR : g.nodes[rid]? = some ⟨rnid, hv :: lv :: rest, rv⟩) :
    g.create_declaration2 mk x rid =
      .ok (g.create_node [x] (mk ⟨true, hv, lv⟩)) := by
  unfold VerilogAstGraph.create_declaration2
  rw [hx, hR]
  simp

theorem create_declaration_bad {g : VerilogAstGraph}
    {mk : DeclData → NodeVariant} {id nid : Nat} {nch : List Nat}
    {v : NodeVariant} (hn : g.nodes[id]? = some ⟨nid, nch, v⟩)
    (h1 : v ≠ .identifierList) (h2 : ∀ t, v ≠ .identifier t) :
    g.create_declaration mk id = .error .fatalAbort := by
  unfold VerilogAstGraph.create_declaration
  rw [hn]
  cases v
  case identifierList => exact absurd rfl h1
  case identifier t => exact absurd rfl (h2 t)
  all_goals rfl

theorem create_declaration2_bad {g : VerilogAstGraph}
    {mk : DeclData → NodeVariant} {id rid nid : Nat} {nch : List Nat}
    {v : NodeVariant} {rnode : AstNode}
    (hn : g.nodes[id]? = some ⟨nid, nch, v⟩)
    (hr : g.nodes[rid]? = some rnode)
    (h1 : v ≠ .identifierList) (h2 : ∀ t, v ≠ .identifier t) :
    g.create_declaration2 mk id rid = .error .fatalAbort := by
  unfold VerilogAstGraph.create_declaration2
  rw [hn, hr]
  cases v
  case identifierList => exact absurd rfl h1
  case identifier t => exact absurd rfl (h2 t)
  all_goals rfl

/-- Claim C2: for a handle `L` naming an IdentifierList with children `cs`,
each of the three one-argument adapters returns a declaration node whose
identifier vector equals `cs`; for a handle `x` naming a bare Identifier,
they return a declaration whose identifier vector equals `[x]`. -/
theorem claim_declaration_normalization (g : VerilogAstGraph)
    (L x nid xid : Nat) (cs xch : List Nat) (t : String)
    (hL : g.nodes[L]? = some ⟨nid, cs, .identifierList⟩)
    (hx : g.nodes[x]? = some ⟨xid, xch, .identifier t⟩) :
    (∃ (n : Nat) (g2 : VerilogAstGraph) (d : AstNode) (dd : DeclData),
      g.create_input_declaration L = .ok (n, g2) ∧ g2.nodes[n]? = some d ∧
      d.variant = .inputDeclaration dd ∧ d.identifiers = cs) ∧
    (∃ (n : Nat) (g2 : VerilogAstGraph) (d : AstNode) (dd : DeclData),
      g.create_output_declaration L = .ok (n, g2) ∧ g2.nodes[n]? = some d ∧
      d.variant = .outputDeclaration dd ∧ d.identifiers = cs) ∧
    (∃ (n : Nat) (g2 : VerilogAstGraph) (d : AstNode) (dd : DeclData),
      g.create_wire_declaration L = .ok (n, g2) ∧ g2.nodes[n]? = some d ∧
      d.variant = .wireDeclaration dd ∧ d.identifiers = cs) ∧
    (∃ (n : Nat) (g2 : VerilogAstGraph) (d : AstNode) (dd : DeclData),
      g.create_input_declaration x = .ok (n, g2) ∧ g2.nodes[n]? = some d ∧
      d.variant = .inputDeclaration dd ∧ d.identifiers = [x]) ∧
    (∃ (n : Nat) (g2 : VerilogAstGraph) (d : AstNode) (dd : DeclData),
      g.create_output_declaration x = .ok (n, g2) ∧ g2.nodes[n]? = some d ∧
      d.variant = .outputDeclaration dd ∧ d.identifiers = [x]) ∧
    (∃ (n : Nat) (g2 : VerilogAstGraph) (d : AstNode) (dd : DeclData),
      g.create_wire_declaration x = .ok (n, g2) ∧ g2.nodes[n]? = some d ∧
      d.variant = .wireDeclaration dd ∧ d.identifiers = [x]) := by
  refine ⟨?_, ?_, ?_, ?_, ?_, ?_⟩
  · exact ⟨_, _, _, ⟨false, 0, 0⟩, create_declaration_list hL,
      List.getElem?_concat_length _ _, rfl, rfl⟩
  · exact ⟨_, _, _, ⟨false, 0, 0⟩, create_declaration_list hL,
      List.getElem?_concat_length _ _, rfl, rfl⟩
  · exact ⟨_, _, _, ⟨false, 0, 0⟩, create_declaration_list hL,
      List.getElem?_concat_length _ _, rfl, rfl⟩
  · exact ⟨_, _, _, ⟨false, 0, 0⟩, create_declaration_single hx,
      List.getElem?_concat_length _ _, rfl, rfl⟩
  · exact ⟨_, _, _, ⟨false, 0, 0⟩, create_declaration_single hx,
      List.getElem?_concat_length _ _, rfl, rfl⟩
  · exact ⟨_, _, _, ⟨false, 0, 0⟩, create_declaration_single hx,
      List.getElem?_concat_length _ _, rfl, rfl⟩

theorem claim_declaration_normalization_witness :
    demo_graph.nodes[2]? = some ⟨2, [0, 1], .identifierList⟩ ∧
    demo_graph.nodes[0]? = some ⟨0, [], .identifier "a"⟩ ∧
    (∃ (n : Nat) (g2 : VerilogAstGraph) (d : AstNode) (dd : DeclData),
      demo_graph.create_wire_declaration 2 = .ok (n, g2) ∧
      g2.nodes[n]? = some d ∧
      d.variant = .wireDeclaration dd ∧ d.identifiers = [0, 1]) :=
  ⟨by decide, by decide,
    (claim_declaration_normalization demo_graph 2 0 2 0 [0, 1] [] "a"
      (by decide) (by decide)).2.2.1⟩

/-- Claim C3: the two-argument adapters, applied to an identifier source
(Identifier or IdentifierList) and a RangeExpression whose hi and lo
children are `hv` and `lv`, return a declaration with `word_level = true`,
`hi = hv` and `lo = lv`; the one-argument adapters return a declaration
with `word_level = false`. -/
theorem claim_range_lift (g : VerilogAstGraph) (src rid sid rnid : Nat)
    (sch : List Nat) (sv : NodeVariant) (hv lv : Nat)
    (hs : g.nodes[src]? = some ⟨sid, sch, sv⟩)
    (hsv : sv = .identifierList ∨ ∃ t, sv = .identifier t)
    (hR : g.nodes[rid]? = some ⟨rnid, [hv, lv], .rangeExpression⟩) :
    (∃ (n : Nat) (g2 : VerilogAstGraph) (d : AstNode) (dd : DeclData),
      g.create_input_declaration2 src rid = .ok (n, g2) ∧
      g2.nodes[n]? = some d ∧ d.variant = .inputDeclaration dd ∧
      dd.word_level = true ∧ dd.hi = hv ∧ dd.lo = lv) ∧
    (∃ (n : Nat) (g2 : VerilogAstGraph) (d : AstNode) (dd : DeclData),
      g.create_output_declaration2 src rid = .ok (n, g2) ∧
      g2.nodes[n]? = some d ∧ d.variant = .outputDeclaration dd ∧
      dd.word_level = true ∧ dd.hi = hv ∧ dd.lo = lv) ∧
    (∃ (n : Nat) (g2 : VerilogAstGraph) (d : AstNode) (dd : DeclData),
      g.create_wire_declaration2 src rid = .ok (n, g2) ∧
      g2.nodes[n]? = some d ∧ d.variant = .wireDeclaration dd ∧
      dd.word_level = true ∧ dd.hi = hv ∧ dd.lo = lv) ∧
    (∃ (n : Nat) (g2 : VerilogAstGraph) (d : AstNode) (dd : DeclData),
      g.create_input_declaration src = .ok (n, g2) ∧
      g2.nodes[n]? = some d ∧ d.variant = .inputDeclaration dd ∧
      dd.word_level = false) ∧
    (∃ (n : Nat) (g2 : VerilogAstGraph) (d : AstNode) (dd : DeclData),
      g.create_output_declaration src = .ok (n, g2) ∧
      g2.nodes[n]? = some d ∧ d.variant = .outputDeclaration dd ∧
      dd.word_level = false) ∧
    (∃ (n : Nat) (g2 : VerilogAstGraph) (d : AstNode) (dd : DeclData),
      g.create_wire_declaration src = .ok (n, g2) ∧
      g2.nodes[n]? = some d ∧ d.variant = .wireDeclaration dd ∧
      dd.word_level = false) := by
  rcases hsv with rfl | ⟨t, rfl⟩
  · exact
      ⟨⟨_, _, _, ⟨true, hv, lv⟩, create_declaration2_list hs hR,
          List.getElem?_concat_length _ _, rfl, rfl, rfl, rfl⟩,
        ⟨_, _, _, ⟨true, hv, lv⟩, create_declaration2_list hs hR,
          List.getElem?_concat_length _ _, rfl, rfl, rfl, rfl⟩,
        ⟨_, _, _, ⟨true, hv, lv⟩, create_declaration2_list hs hR,
          List.getElem?_concat_length _ _, rfl, rfl, rfl, rfl⟩,
        ⟨_, _, _, ⟨false, 0, 0⟩, create_declaration_list hs,
          List.getElem?_concat_length _ _, rfl, rfl⟩,
        ⟨_, _, _, ⟨false, 0, 0⟩, create_declaration_list hs,
          List.getElem?_concat_length _ _, rfl, rfl⟩,
        ⟨_, _, _, ⟨false, 0, 0⟩, create_declaration_list hs,
          List.getElem?_concat_length _ _, rfl, rfl⟩⟩
  · exact
      ⟨⟨_, _, _, ⟨true, hv, lv⟩, create_declaration2_single hs hR,
          List.getElem?_concat_length _ _, rfl, rfl, rfl, rfl⟩,
        ⟨_, _, _, ⟨true, hv, lv⟩, create_declaration2_single hs hR,
          List.getElem?_concat_length _ _, rfl, rfl, rfl, rfl⟩,
        ⟨_, _, _, ⟨true, hv, lv⟩, create_declaration2_single hs hR,
          List.getElem?_concat_length _ _, rfl, rfl, rfl, rfl⟩,
        ⟨_, _, _, ⟨false, 0, 0⟩, create_declaration_single hs,
          List.getElem?_concat_length _ _, rfl, rfl⟩,
        ⟨_, _, _, ⟨false, 0, 0⟩, create_declaration_single hs,
          List.getElem?_concat_length _ _, rfl, rfl⟩,
        ⟨_, _, _, ⟨false, 0, 0⟩, create_declaration_single hs,
          List.getElem?_concat_length _ _, rfl, rfl⟩⟩

theorem claim_range_lift_witness :
    demo_graph.nodes[0]? = some ⟨0, [], .identifier "a"⟩ ∧
    demo_graph.nodes[5]? = some ⟨5, [3, 4], .rangeExpression⟩ ∧
    (∃ (n : Nat) (g2 : VerilogAstGraph) (d : AstNode) (dd : DeclData),
      demo_graph.create_wire_declaration2 0 5 = .ok (n, g2) ∧
      g2.nodes[n]? = some d ∧ d.variant = .wireDeclaration dd ∧
      dd.word_level = true ∧ dd.hi = 3 ∧ dd.lo = 4) :=
  ⟨by decide, by decide,
    (claim_range_lift demo_graph 0 5 0 5 [] (.identifier "a") 3 4
      (by decide) (Or.inr ⟨"a", rfl⟩) (by decide)).2.2.1⟩

/-- Counterexample to **C4** as stated: in `demo_graph`, handle 6 names
an ArraySelect node (not a RangeExpression), yet
`create_wire_declaration(0, 6)` is not a fatal precondition violation —
the call completes normally (`rid` is dereferenced through an unchecked
`static_cast`, and no variant check is performed on it). -/
theorem claim_adapter_fatal_cex :
    demo_graph.nodes[6]?.map AstNode.variant = some .arraySelect ∧
    demo_graph.nodes[0]?.map AstNode.variant =
      some (.identifier "a") ∧
    (demo_graph.create_wire_declaration2 0 6).isOk = true := by
  refine ⟨by decide, by decide, ?_⟩
  rfl

/-- Claim C4 (amended): if the identifier-source handle names a node that
is neither an Identifier nor an IdentifierList, all six adapter
constructors terminate fatally (`assert(false); std::abort()`).  The
two-argument adapters, however, do not validate `rid`: whenever `rid`
names a node with at least two children — of any variant — and the
identifier source is well-formed, the call completes normally, taking
that node's first two children as `hi` and `lo`.  (When `rid`'s node has
fewer than two children the reads are out-of-range vector accesses,
undefined behavior rather than a guaranteed abort.) -/
theorem claim_adapter_fatal_amended (g : VerilogAstGraph) (id rid : Nat)
    (node rnode : AstNode) (hn : g.nodes[id]? = some node)
    (hr : g.nodes[rid]? = some rnode) :
    ((node.variant ≠ .identifierList ∧ ∀ t, node.variant ≠ .identifier t) →
      g.create_input_declaration id = .error .fatalAbort ∧
      g.create_output_declaration id = .error .fatalAbort ∧
      g.create_wire_declaration id = .error .fatalAbort ∧
      g.create_input_declaration2 id rid = .error .fatalAbort ∧
      g.create_output_declaration2 id rid = .error .fatalAbort ∧
      g.create_wire_declaration2 id rid = .error .fatalAbort) ∧
    (∀ c0 c1 cs, rnode.children = c0 :: c1 :: cs →
      (node.variant = .identifierList ∨ ∃ t, node.variant = .identifier t) →
      ∃ r1 r2 r3,
        g.create_input_declaration2 id rid = .ok r1 ∧
        g.create_output_declaration2 id rid = .ok r2 ∧
        g.create_wire_declaration2 id rid = .ok r3) := by
  obtain ⟨nid, nch, nv⟩ := node
  constructor
  · rintro ⟨h1, h2⟩
    exact ⟨create_declaration_bad hn h1 h2, create_declaration_bad hn h1 h2,
      create_declaration_bad hn h1 h2, create_declaration2_bad hn hr h1 h2,
      create_declaration2_bad hn hr h1 h2,
      create_declaration2_bad hn hr h1 h2⟩
  · intro c0 c1 cs hch hsv
    obtain ⟨rnid, rch, rv⟩ := rnode
    simp only at hch
    subst hch
    rcases hsv with hv | ⟨t, hv⟩
    · simp only at hv
      subst hv
      exact ⟨_, _, _, create_declaration2_list hn hr,
        create_declaration2_list hn hr, create_declaration2_list hn hr⟩
    · simp only at hv
      subst hv
      exact ⟨_, _, _, create_declaration2_single hn hr,
        create_declaration2_single hn hr, create_declaration2_single hn hr⟩

theorem claim_adapter_fatal_amended_witness :
    demo_graph.nodes[3]? = some ⟨3, [], .numeral "7"⟩ ∧
    demo_graph.nodes[5]? = some ⟨5, [3, 4], .rangeExpression⟩ ∧
    (((⟨3, [], .numeral "7"⟩ : AstNode).variant ≠ .identifierList ∧
        ∀ t, (⟨3, [], .numeral "7"⟩ : AstNode).variant ≠ .identifier t) →
      demo_graph.create_input_declaration 3 = .error .fatalAbort ∧
      demo_graph.create_output_declaration 3 = .error .fatalAbort ∧
      demo_graph.create_wire_declaration 3 = .error .fatalAbort ∧
      demo_graph.create_input_declaration2 3 5 = .error .fatalAbort ∧
      demo_graph.create_output_declaration2 3 5 = .error .fatalAbort ∧
      demo_graph.create_wire_declaration2 3 5 = .error .fatalAbort) ∧
    (∀ c0 c1 cs,
      (⟨5, [3, 4], .rangeExpression⟩ : AstNode).children = c0 :: c1 :: cs →
      ((⟨3, [], .numeral "7"⟩ : AstNode).variant = .identifierList ∨
        ∃ t, (⟨3, [], .numeral "7"⟩ : AstNode).variant = .identifier t) →
      ∃ r1 r2 r3,
        demo_graph.create_input_declaration2 3 5 = .ok r1 ∧
        demo_graph.create_output_declaration2 3 5 = .ok r2 ∧
        demo_graph.create_wire_declaration2 3 5 = .ok r3) :=
  ⟨by decide, by decide,
    claim_adapter_fatal_amended demo_graph 3 5 ⟨3, [], .numeral "7"⟩
      ⟨5, [3, 4], .rangeExpression⟩ (by decide) (by decide)⟩

theorem lor_land_high (h : Nat) (hlt : h < 2 ^ 31) :
    (h ||| 2 ^ 31) &&& (2 ^ 31 - 1) = h := by
  apply Nat.eq_of_testBit_eq
  intro i
  rw [Nat.testBit_land, Nat.testBit_lor, Nat.testBit_two_pow_sub_one,
    Nat.testBit_two_pow]
  by_cases hi : i < 31
  · have hne : (31 : Nat) ≠ i := Nat.ne_of_gt hi
    simp [hi, hne]
  · have hb : h.testBit i = false :=
      Nat.testBit_eq_false_of_lt
        (lt_of_lt_of_le hlt
          (Nat.pow_le_pow_right (by norm_num) (Nat.le_of_not_lt hi)))
    simp [hi, hb]

theorem land_high_ne (h : Nat) : ((h ||| 2 ^ 31) &&& 2 ^ 31) ≠ 0 := by
  intro hc
  have htb : ((h ||| 2 ^ 31) &&& 2 ^ 31).testBit 31 = false := by
    rw [hc]
    exact Nat.zero_testBit 31
  rw [Nat.testBit_land, Nat.testBit_lor, Nat.testBit_two_pow] at htb
  simp at htb

/-- Claim C7: for every handle `h < 2^31`, an `ast_or_error` constructed
from `h` satisfies `valid() = true` and `ast() = h` (the top bit
`0x80000000` is the validity marker, the lower 31 bits carry `h`); the
default-constructed `ast_or_error` satisfies `valid() = false`. -/
theorem claim_ast_or_error (h : Nat) (hlt : h < 2 ^ 31) :
    (AstOrError.ofAst h).valid = true ∧ (AstOrError.ofAst h).ast = h ∧
    AstOrError.mkError.valid = false := by
  have e1 : (0x80000000 : Nat) = 2 ^ 31 := by norm_num
  have e2 : (0x7FFFFFFF : Nat) = 2 ^ 31 - 1 := by norm_num
  have hm : h % 2 ^ 32 = h := Nat.mod_eq_of_lt (lt_trans hlt (by norm_num))
  have hof : AstOrError.ofAst h = ⟨h ||| 2 ^ 31⟩ := by
    show AstOrError.mk ((h % 2 ^ 32) ||| 0x80000000) = _
    rw [hm, e1]
  refine ⟨?_, ?_, by decide⟩
  · rw [hof]
    show (((h ||| 2 ^ 31) &&& 0x80000000) != 0) = true
    rw [e1, bne_iff_ne]
    exact land_high_ne h
  · rw [hof]
    show ((h ||| 2 ^ 31) &&& 0x7FFFFFFF) = h
    rw [e2]
    exact lor_land_high h hlt

theorem claim_ast_or_error_witness :
    5 < 2 ^ 31 ∧
    ((AstOrError.ofAst 5).valid = true ∧ (AstOrError.ofAst 5).ast = 5 ∧
      AstOrError.mkError.valid = false) :=
  ⟨by norm_num, claim_ast_or_error 5 (by norm_num)⟩

/-- Claim C8: `node_ptr(handle)` returns the stored node for every handle
below the arena size; for a handle at or above the arena size no node is
returned — `nodes_.at(id)` raises, nothing in the store handles it, and
no error value is produced for this programmer mistake. -/
theorem claim_node_ptr (g : VerilogAstGraph) (id : Nat) :
    (∀ h : id < g.nodes.length,
      g.node_ptr id = some (g.nodes.get ⟨id, h⟩)) ∧
    (g.nodes.length ≤ id → g.node_ptr id = none) := by
  constructor
  · intro h
    exact List.getElem?_eq_getElem h
  · intro h
    exact List.getElem?_eq_none h

theorem claim_node_ptr_witness :
    (0 < demo_graph.nodes.length ∧
      demo_graph.node_ptr 0 = some ⟨0, [], .identifier "a"⟩) ∧
    (demo_graph.nodes.length ≤ 99 ∧ demo_graph.node_ptr 99 = none) :=
  ⟨⟨by decide, (claim_node_ptr demo_graph 0).1 (by decide)⟩,
    ⟨by decide, (claim_node_ptr demo_graph 99).2 (by decide)⟩⟩

/-- Claim C9: Module and ModuleInstantiation nodes keep all their
references (args, decls, port assignments, parameters) as variant
payload, never as children: whatever lists they are built from, the
created node's children list is empty, `is_leaf()` is true and
`foreach_child` invokes its callback zero times; likewise a
SystemFunction's function-name handle is payload and is not visited by
`foreach_child`, which visits exactly the argument handles. -/
theorem claim_payload_not_children (g : VerilogAstGraph) (name : String)
    (args decls : List Nat) (mn inm fnh : Nat) (pa : List (Nat × Nat))
    (ps fargs : List Nat) (f : Nat → Nat) :
    (∃ node : AstNode,
      (g.create_module name args decls).2.nodes[
          (g.create_module name args decls).1]? = some node ∧
        node.is_leaf = true ∧ node.children = [] ∧
        node.foreach_child f = [] ∧
        node.variant = .moduleDef name args decls) ∧
    (∃ node : AstNode,
      (g.create_module_instantiation mn inm pa ps).2.nodes[
          (g.create_module_instantiation mn inm pa ps).1]? = some node ∧
        node.is_leaf = true ∧ node.children = [] ∧
        node.foreach_child f = [] ∧
        node.variant = .moduleInstantiation mn inm pa ps) ∧
    (∃ node : AstNode,
      (g.create_system_function fnh fargs).2.nodes[
          (g.create_system_function fnh fargs).1]? = some node ∧
        node.children = fargs ∧ node.foreach_child f = fargs.map f ∧
        node.variant = .systemFunction fnh) :=
  ⟨⟨_, List.getElem?_concat_length _ _, rfl, rfl, rfl, rfl⟩,
    ⟨_, List.getElem?_concat_length _ _, rfl, rfl, rfl, rfl⟩,
    ⟨_, List.getElem?_concat_length _ _, rfl, rfl, rfl⟩⟩

/-- Claim C10: `ast()` on the default-constructed (invalid) `ast_or_error`
returns 0, indistinguishable from `ast()` of a valid value built from
handle 0; only `valid()` separates the error sentinel from a genuine
handle 0. -/
theorem claim_error_sentinel :
    AstOrError.mkError.ast = 0 ∧ (AstOrError.ofAst 0).ast = 0 ∧
    AstOrError.mkError.valid = false ∧ (AstOrError.ofAst 0).valid = true ∧
    AstOrError.mkError ≠ AstOrError.ofAst 0 := by
  decide

end Lorina
